import Mathlib

/-!
# Verification of `missing_greenlet_error.py`

Shallow embedding of the single source file `src/missing_greenlet_error.py`,
a SQLAlchemy-async demo script.  The script defines two ORM models
(`PirateCrew`, `Pirate`), a seeding routine (`db_seeder`) and three read
routines (`missing_greenlet_error`, `fix_with_loading_techniques`,
`fix_with_async_attrs`).

The ORM rows become Lean structures, the database becomes explicit state
(lists of rows plus auto-increment counters implied by the max id), and the
ORM's lazy-relationship machinery — which lives in the external SQLAlchemy
library, not in the repository — is modelled from the specification's
contract: a fetched row carries its relationship collection either
`unloaded` or `loaded`, plain attribute access on an unloaded collection in
the async context fails with the scope-resolution error
(`MissingGreenletError`), and the `awaitable_attrs` access performs the
round-trip on demand but only while the owning session scope is open.
-/

/-- Row of the `pirate_crew` table: `id` (PK), `name`, `ship_name`. -/
structure PirateCrew where
  id : Nat
  name : String
  ship_name : String
deriving DecidableEq, Repr

/-- Row of the `pirates` table: `id` (PK), `name`, `role`,
`devil_fruit_user`, `pirate_crew_id` (FK to `pirate_crew.id`, nullable). -/
structure Pirate where
  id : Nat
  name : String
  role : String
  devil_fruit_user : Bool
  pirate_crew_id : Option Nat
deriving DecidableEq, Repr

/-- The database: the two tables created by `create_tables`. -/
structure DB where
  crews : List PirateCrew
  pirates : List Pirate
deriving DecidableEq, Repr

/-- The empty database, right after `create_tables` on a fresh store. -/
def DB.empty : DB := ⟨[], []⟩

/-- Auto-increment successor: SQL integer primary keys default to one more
than the largest id already present (1 on an empty table). -/
def nextId (ids : List Nat) : Nat := ids.foldr max 0 + 1

/-- Rows of `pirates` whose foreign key points at crew `cid` — the storage
content of `PirateCrew.members` (`relationship(back_populates="pirate_crew")`). -/
def membersOf (db : DB) (cid : Nat) : List Pirate :=
  db.pirates.filter (fun p => p.pirate_crew_id == some cid)

/-- Errors surfaced by the demo routines. `missingGreenlet` is the
spec's *ScopeResolutionError* (SQLAlchemy's `MissingGreenletError`);
`indexError` is Python's `IndexError` from `.all()[0]` on an empty result;
`integrityError` is a commit-time constraint violation. -/
inductive DBError where
  | missingGreenlet
  | indexError
  | integrityError
deriving DecidableEq, Repr

/-- A relationship attribute of a fetched row is either still unresolved
or already materialized to a value. -/
inductive LoadState (α : Type) where
  | unloaded
  | loaded (val : α)
deriving DecidableEq, Repr

/-- A `PirateCrew` row as fetched into a session: the mapped columns plus
the `members` relationship attribute in its current load state. -/
structure FetchedCrew where
  crew : PirateCrew
  members : LoadState (List Pirate)
deriving DecidableEq, Repr

/-- State of a unit-of-work (session) scope. -/
inductive ScopeState where
  | opened
  | closed
deriving DecidableEq, Repr

/-- Plain query `(await session.execute(select(PirateCrew))).all()`: every
crew row, with the `members` relationship left unloaded (default lazy
loading). -/
def selectCrews (db : DB) : List FetchedCrew :=
  db.crews.map (fun c => ⟨c, LoadState.unloaded⟩)

/-- Eager query `select(PirateCrew).options(selectinload(PirateCrew.members))`:
every crew row with `members` pre-populated by one additional batched
SELECT...IN query keyed by the parent ids. -/
def selectCrewsSelectinload (db : DB) : List FetchedCrew :=
  db.crews.map (fun c => ⟨c, LoadState.loaded (membersOf db c.id)⟩)

/-- Modelled from the spec: plain (synchronous) attribute access on the
`members` relationship.  The lazy-load machinery is SQLAlchemy's, outside
the repository; per the spec's contract, a code path that cannot suspend to
perform the round-trip must fail with the scope-resolution error when the
collection is not yet materialized, and returns the materialized value
otherwise. -/
def lazyAccessMembers (fc : FetchedCrew) : Except DBError (List Pirate) :=
  match fc.members with
  | LoadState.loaded ms => Except.ok ms
  | LoadState.unloaded => Except.error DBError.missingGreenlet

/-- Modelled from the spec: `await pirate_crew.awaitable_attrs.members`
(`AsyncAttrs`).  An explicit suspension point that resolves the collection
on demand with one round-trip, legal only while the owning scope is still
open; after the scope has closed the round-trip capability is gone and the
access fails with the scope-resolution error. -/
def awaitMembers (db : DB) (scope : ScopeState) (fc : FetchedCrew) :
    Except DBError (List Pirate) :=
  match fc.members with
  | LoadState.loaded ms => Except.ok ms
  | LoadState.unloaded =>
    match scope with
    | ScopeState.opened => Except.ok (membersOf db fc.crew.id)
    | ScopeState.closed => Except.error DBError.missingGreenlet

/-- Result of a read routine: the printed member collection together with
the number of storage round-trips issued at fetch time and at
attribute-resolution time. -/
structure ReadResult where
  members : List Pirate
  fetchQueries : Nat
  resolutionQueries : Nat
deriving DecidableEq, Repr

/-- Commit-time constraint check done by the storage engine: primary keys
unique in each table and every non-null `pirate_crew_id` references an
existing `pirate_crew.id`. -/
def commitOk (db : DB) : Bool :=
  (db.crews.map PirateCrew.id).Nodup
    && (db.pirates.map Pirate.id).Nodup
    && db.pirates.all (fun p =>
        match p.pirate_crew_id with
        | none => true
        | some cid => db.crews.any (fun c => c.id == cid))

/-- Seeding routine `db_seeder`: inside one session scope, build the `"Straw Hats"` crew
and its three members (`pirate_crew=mugiwara` populates the foreign key),
`session.add` / `session.add_all` them, and commit once.  Primary keys are
generated by the auto-increment counters at flush. -/
def db_seeder (db : DB) : Except DBError DB :=
  let cid := nextId (db.crews.map PirateCrew.id)
  let mugiwara : PirateCrew := ⟨cid, "Straw Hats", "Thousand Sunny"⟩
  let pid := nextId (db.pirates.map Pirate.id)
  let mugiwara_members : List Pirate :=
    [ ⟨pid, "Monkey D Luffy", "Captain", true, some cid⟩,
      ⟨pid + 1, "Roronoa zoro", "First Mate", false, some cid⟩,
      ⟨pid + 2, "Nami", "Navigator", false, some cid⟩ ]
  let db' : DB := ⟨db.crews ++ [mugiwara], db.pirates ++ mugiwara_members⟩
  if commitOk db' then Except.ok db' else Except.error DBError.integrityError

/-- Naive read routine `missing_greenlet_error`: open a scope, fetch the first `PirateCrew`
with a plain `select`, then read `pirate_crew.members` with plain attribute
access. -/
def missing_greenlet_error (db : DB) : Except DBError ReadResult :=
  match selectCrews db with
  | [] => Except.error DBError.indexError
  | fc :: _ =>
    match lazyAccessMembers fc with
    | Except.error e => Except.error e
    | Except.ok ms => Except.ok ⟨ms, 1, 0⟩

/-- Eager-load routine `fix_with_loading_techniques`: open a scope, fetch the first
`PirateCrew` with `selectinload(PirateCrew.members)` (main query plus one
batched relationship query), then read `pirate_crew.members` — already
materialized, so resolution issues no further query. -/
def fix_with_loading_techniques (db : DB) : Except DBError ReadResult :=
  match selectCrewsSelectinload db with
  | [] => Except.error DBError.indexError
  | fc :: _ =>
    match lazyAccessMembers fc with
    | Except.error e => Except.error e
    | Except.ok ms => Except.ok ⟨ms, 2, 0⟩

/-- Explicit-awaitable routine `fix_with_async_attrs`: open a scope, fetch the first `PirateCrew` with
a plain `select`, then `await pirate_crew.awaitable_attrs.members` while
the scope is still open — one on-demand round-trip at resolution time. -/
def fix_with_async_attrs (db : DB) : Except DBError ReadResult :=
  match selectCrews db with
  | [] => Except.error DBError.indexError
  | fc :: _ =>
    match awaitMembers db ScopeState.opened fc with
    | Except.error e => Except.error e
    | Except.ok ms => Except.ok ⟨ms, 1, 1⟩

/-- Referential integrity: every persisted pirate with a non-null foreign
key refers to an existing crew. -/
def refIntegrity (db : DB) : Bool :=
  db.pirates.all (fun p =>
    match p.pirate_crew_id with
    | none => true
    | some cid => db.crews.any (fun c => c.id == cid))

/-- The database produced by one run of `db_seeder` on the empty store. -/
def seededDB : DB :=
  ⟨[⟨1, "Straw Hats", "Thousand Sunny"⟩],
   [ ⟨1, "Monkey D Luffy", "Captain", true, some 1⟩,
     ⟨2, "Roronoa zoro", "First Mate", false, some 1⟩,
     ⟨3, "Nami", "Navigator", false, some 1⟩ ]⟩

/-- The database produced by running `db_seeder` a second time on
`seededDB`: the auto-increment counters hand out fresh ids (crew id 2,
pirate ids 4–6), so the same crew and members are inserted again. -/
def twiceSeededDB : DB :=
  ⟨[⟨1, "Straw Hats", "Thousand Sunny"⟩, ⟨2, "Straw Hats", "Thousand Sunny"⟩],
   [ ⟨1, "Monkey D Luffy", "Captain", true, some 1⟩,
     ⟨2, "Roronoa zoro", "First Mate", false, some 1⟩,
     ⟨3, "Nami", "Navigator", false, some 1⟩,
     ⟨4, "Monkey D Luffy", "Captain", true, some 2⟩,
     ⟨5, "Roronoa zoro", "First Mate", false, some 2⟩,
     ⟨6, "Nami", "Navigator", false, some 2⟩ ]⟩

/-- Startup failure: the spec's *ConfigurationError*. -/
inductive ConfigError where
  | configurationError
deriving DecidableEq, Repr

/-- The engine produced by `create_async_engine(DB_ENGINE, echo=True)`. -/
structure Engine where
  url : String
deriving DecidableEq, Repr

/-- Modelled from the spec: validity of the connection descriptor checked
by `create_async_engine` (its URL parser lives in the external SQLAlchemy
library).  Per the spec the descriptor carries driver plus
credentials/host/database, so it must split as `driver://rest` with both
parts non-empty; anything else is malformed. -/
def validDescriptor (url : String) : Bool :=
  match url.splitOn "://" with
  | [driver, rest] => !driver.isEmpty && !rest.isEmpty
  | _ => false

/-- Startup of the module: `DB_ENGINE = os.getenv("DB_ASYNC")` reads the
environment once, then `create_async_engine(DB_ENGINE, echo=True)` fails if
the descriptor is absent (`None`) or malformed. -/
def startup (env : String → Option String) : Except ConfigError Engine :=
  match env "DB_ASYNC" with
  | none => Except.error ConfigError.configurationError
  | some url =>
    if validDescriptor url then Except.ok ⟨url⟩
    else Except.error ConfigError.configurationError

/-- Whole-process run: module import (startup) must succeed before the
selected routine in the `__main__` block can execute at all. -/
def runProgram (env : String → Option String)
    (routine : DB → Except DBError ReadResult) (db : DB) :
    Except ConfigError (Except DBError ReadResult) :=
  match startup env with
  | Except.error e => Except.error e
  | Except.ok _ => Except.ok (routine db)

deriving instance DecidableEq for Except

/-- Sanity: seeding the empty database yields `seededDB`. -/
theorem db_seeder_empty : db_seeder DB.empty = Except.ok seededDB := by
  rfl

/-- Helper: the commit-time check implies the referential-integrity
predicate (it is its third conjunct). -/
theorem commitOk_refIntegrity (db : DB) (h : commitOk db = true) :
    refIntegrity db = true := by
  unfold commitOk at h
  rw [Bool.and_eq_true, Bool.and_eq_true] at h
  exact h.2

/-- C1: against any seeded (non-empty) database, the naive read routine
raises the scope-resolution error (`MissingGreenletError`); it never
returns a collection, partially resolved or empty, silently. -/
theorem naive_read_always_raises (db : DB) (h : db.crews ≠ []) :
    missing_greenlet_error db = Except.error DBError.missingGreenlet := by
  obtain ⟨crews, pirates⟩ := db
  cases crews with
  | nil => exact absurd rfl h
  | cons c cs => rfl

/-- Witness for C1 at the concrete seeded database. -/
theorem naive_read_always_raises_witness :
    seededDB.crews ≠ [] ∧
    missing_greenlet_error seededDB = Except.error DBError.missingGreenlet :=
  ⟨by decide, naive_read_always_raises seededDB (by decide)⟩

/-- C2: the eager-load routine on the seeded database returns a member
collection of length 3 whose names are exactly
{"Monkey D Luffy", "Roronoa zoro", "Nami"} up to order, already
materialized so that resolution issues zero further round-trips beyond the
two issued at fetch time (the main query plus the single batched one). -/
theorem eager_load_three_members :
    ∃ r : ReadResult,
      fix_with_loading_techniques seededDB = Except.ok r ∧
      r.members.length = 3 ∧
      List.Perm (r.members.map Pirate.name)
        ["Monkey D Luffy", "Roronoa zoro", "Nami"] ∧
      r.resolutionQueries = 0 ∧ r.fetchQueries = 2 := by
  refine ⟨⟨[⟨1, "Monkey D Luffy", "Captain", true, some 1⟩,
            ⟨2, "Roronoa zoro", "First Mate", false, some 1⟩,
            ⟨3, "Nami", "Navigator", false, some 1⟩], 2, 0⟩,
          rfl, rfl, ?_, rfl, rfl⟩
  decide

/-- C3: on every database the explicit-awaitable routine returns exactly
the member collection the eager-load routine returns (and fails exactly
when it fails); at the seeded database that collection is the three
members. -/
theorem async_attrs_equiv_eager :
    (∀ db : DB,
      (fix_with_async_attrs db).map ReadResult.members =
        (fix_with_loading_techniques db).map ReadResult.members) ∧
    (fix_with_async_attrs seededDB).map ReadResult.members =
      Except.ok [⟨1, "Monkey D Luffy", "Captain", true, some 1⟩,
                 ⟨2, "Roronoa zoro", "First Mate", false, some 1⟩,
                 ⟨3, "Nami", "Navigator", false, some 1⟩] := by
  constructor
  · intro db
    obtain ⟨crews, pirates⟩ := db
    cases crews with
    | nil => rfl
    | cons c cs => rfl
  · rfl

/-- C4: one run of `db_seeder` on the empty database commits exactly one
crew (name "Straw Hats", ship "Thousand Sunny", id 1) and exactly three
pirates, each with foreign key `pirate_crew_id = some 1`, in a single
successful commit. -/
theorem seed_once_contents :
    db_seeder DB.empty = Except.ok seededDB ∧
    seededDB.crews = [⟨1, "Straw Hats", "Thousand Sunny"⟩] ∧
    seededDB.pirates.length = 3 ∧
    seededDB.pirates.all (fun p => p.pirate_crew_id == some 1) = true := by
  decide

/-- C5: whenever a fetched crew's member collection is still unloaded,
resolving it in the `closed` scope state fails with the scope-resolution
error, through plain attribute access and through the awaitable-attributes
mechanism alike. -/
theorem closed_scope_access_fails (db : DB) (fc : FetchedCrew)
    (h : fc.members = LoadState.unloaded) :
    lazyAccessMembers fc = Except.error DBError.missingGreenlet ∧
    awaitMembers db ScopeState.closed fc = Except.error DBError.missingGreenlet := by
  obtain ⟨c, ms⟩ := fc
  cases ms with
  | unloaded => exact ⟨rfl, rfl⟩
  | loaded v => cases h

/-- Witness for C5 at a concrete unloaded fetched crew. -/
theorem closed_scope_access_fails_witness :
    (FetchedCrew.members
        ⟨⟨1, "Straw Hats", "Thousand Sunny"⟩, LoadState.unloaded⟩ =
      LoadState.unloaded) ∧
    lazyAccessMembers ⟨⟨1, "Straw Hats", "Thousand Sunny"⟩, LoadState.unloaded⟩ =
      Except.error DBError.missingGreenlet ∧
    awaitMembers seededDB ScopeState.closed
        ⟨⟨1, "Straw Hats", "Thousand Sunny"⟩, LoadState.unloaded⟩ =
      Except.error DBError.missingGreenlet :=
  ⟨rfl,
   (closed_scope_access_fails seededDB
      ⟨⟨1, "Straw Hats", "Thousand Sunny"⟩, LoadState.unloaded⟩ rfl).1,
   (closed_scope_access_fails seededDB
      ⟨⟨1, "Straw Hats", "Thousand Sunny"⟩, LoadState.unloaded⟩ rfl).2⟩

/-- C6 counterexample: re-running `db_seeder` on the already-seeded
database does not raise `IntegrityError` — it succeeds, because the primary
keys are auto-generated fresh and no other column is constrained unique. -/
theorem seed_rerun_no_integrity_error :
    db_seeder seededDB ≠ Except.error DBError.integrityError ∧
    db_seeder seededDB = Except.ok twiceSeededDB := by
  decide

/-- C6 amended: re-running `db_seeder` against the already-seeded database
succeeds silently and duplicates the data — afterwards two "Straw
Hats"/"Thousand Sunny" crews and six pirates exist. -/
theorem seed_rerun_duplicates :
    db_seeder seededDB = Except.ok twiceSeededDB ∧
    twiceSeededDB.crews.length = 2 ∧
    twiceSeededDB.pirates.length = 6 ∧
    (twiceSeededDB.crews.filter
        (fun c => c.name == "Straw Hats" && c.ship_name == "Thousand Sunny")).length
      = 2 := by
  decide

/-- C7: every database a `db_seeder` commit produces satisfies referential
integrity — each persisted pirate's foreign key names an existing crew. -/
theorem commit_referential_integrity (db db' : DB)
    (h : db_seeder db = Except.ok db') : refIntegrity db' = true := by
  unfold db_seeder at h
  simp only [] at h
  split at h
  · cases h
    exact commitOk_refIntegrity _ (by assumption)
  · cases h

/-- Witness for C7 at the seed of the empty database. -/
theorem commit_referential_integrity_witness :
    db_seeder DB.empty = Except.ok seededDB ∧ refIntegrity seededDB = true :=
  ⟨db_seeder_empty, commit_referential_integrity DB.empty seededDB db_seeder_empty⟩

/-- C8: startup reads only the `DB_ASYNC` key of the environment (the
result depends on nothing else), and when that key is absent or its value
is malformed, startup fails with *ConfigurationError* and no routine can
run. -/
theorem config_failure_blocks_routines (env : String → Option String)
    (h : env "DB_ASYNC" = none ∨
      ∃ u, env "DB_ASYNC" = some u ∧ validDescriptor u = false) :
    (∀ routine db,
      runProgram env routine db = Except.error ConfigError.configurationError) ∧
    (∀ env2 : String → Option String,
      env2 "DB_ASYNC" = env "DB_ASYNC" → startup env2 = startup env) := by
  have hs : startup env = Except.error ConfigError.configurationError := by
    rcases h with h | ⟨u, hu, hv⟩
    · simp [startup, h]
    · simp [startup, hu, hv]
  refine ⟨fun routine db => ?_, fun env2 h2 => ?_⟩
  · simp [runProgram, hs]
  · simp [startup, h2]

/-- Witness for C8 at the empty environment and the naive routine. -/
theorem config_failure_blocks_routines_witness :
    ((fun _ : String => (none : Option String)) "DB_ASYNC" = none) ∧
    runProgram (fun _ => none) missing_greenlet_error DB.empty =
      Except.error ConfigError.configurationError :=
  ⟨rfl,
   (config_failure_blocks_routines (fun _ => none) (Or.inl rfl)).1
     missing_greenlet_error DB.empty⟩

/-- C9: on a database with no crew rows, each of the three read routines
fails with the index error from `.all()[0]`, before any relationship
access. -/
theorem empty_db_index_error (db : DB) (h : db.crews = []) :
    missing_greenlet_error db = Except.error DBError.indexError ∧
    fix_with_loading_techniques db = Except.error DBError.indexError ∧
    fix_with_async_attrs db = Except.error DBError.indexError := by
  obtain ⟨crews, pirates⟩ := db
  cases crews with
  | nil => exact ⟨rfl, rfl, rfl⟩
  | cons c cs => exact (List.cons_ne_nil c cs h).elim

/-- Witness for C9 at the empty database. -/
theorem empty_db_index_error_witness :
    DB.empty.crews = [] ∧
    missing_greenlet_error DB.empty = Except.error DBError.indexError ∧
    fix_with_loading_techniques DB.empty = Except.error DBError.indexError ∧
    fix_with_async_attrs DB.empty = Except.error DBError.indexError :=
  ⟨rfl, (empty_db_index_error DB.empty rfl).1,
        (empty_db_index_error DB.empty rfl).2.1,
        (empty_db_index_error DB.empty rfl).2.2⟩

/-- C10: in the seeded data exactly one pirate has the devil-fruit flag
set — "Monkey D Luffy", the "Captain" — while "Roronoa zoro" ("First
Mate") and "Nami" ("Navigator") have it unset. -/
theorem devil_fruit_flags :
    seededDB.pirates.filter Pirate.devil_fruit_user =
      [⟨1, "Monkey D Luffy", "Captain", true, some 1⟩] ∧
    seededDB.pirates.filter (fun p => !p.devil_fruit_user) =
      [⟨2, "Roronoa zoro", "First Mate", false, some 1⟩,
       ⟨3, "Nami", "Navigator", false, some 1⟩] := by
  decide
